import Mathlib

/-!
Shallow embedding of the LimeStack Connector's protocol and dispatch layer
(src/src-tauri/src/protocol.rs, printer.rs, server.rs).

External collaborators (the `printers` crate, the `base64` crate, the file
system and the OS print command) are modelled as explicit parameters; all
repository code is translated directly from the Rust source.
-/

namespace Limestack

/-- protocol.rs `PrinterInfo` (serialized fields `id`, `name`, `type`,
`status`, `isDefault`). -/
structure PrinterInfo where
  id : String
  name : String
  printer_type : String
  status : String
  is_default : Bool
deriving DecidableEq, Repr

/-- protocol.rs `PrintOptions`: both fields optional (`copies`, `paperSize`). -/
structure PrintOptions where
  copies : Option Nat
  paper_size : Option String
deriving DecidableEq, Repr

/-- protocol.rs `ClientMessage`: internally tagged (`type`) enum, snake_case
variant names; `Print.request_id` is serialized as `requestId` and `options`
is a required field (it has no serde default). -/
inductive ClientMessage where
  | Hello (version : String) (origin : String)
  | GetPrinters
  | Print (request_id : String) (printer : String) (format : String)
      (data : String) (options : PrintOptions)
  | ReadScale
deriving DecidableEq, Repr

/-- protocol.rs `ServerMessage`. `ScaleReading.weight` is an `f64` in the
source; it is never constructed by the dispatch layer, so its field is kept
as `Float` purely for protocol-surface fidelity. -/
inductive ServerMessage where
  | Welcome (connector_version : String) (capabilities : List String)
      (printers : List PrinterInfo)
  | Printers (printers : List PrinterInfo)
  | PrintResult (request_id : String) (success : Bool)
      (message : Option String) (error : Option String)
  | ScaleReading (weight : Float) (unit : String) (stable : Bool)
  | Error (message : String)

/-- Rust `str::starts_with` on strings (byte/char-sequence prefix test). -/
def starts_with (s pre : String) : Bool :=
  pre.data.isPrefixOf s.data

/-- Rust `str::to_lowercase` (the names involved are ASCII, where Rust's
Unicode lowercasing and per-char ASCII lowercasing agree). -/
def to_lowercase (s : String) : String :=
  String.mk (s.data.map Char.toLower)

/-- Occurrence of `pat` as a contiguous sublist of `hay`. -/
def occurs_in (pat : List Char) : List Char → Bool
  | [] => pat.isEmpty
  | c :: t => pat.isPrefixOf (c :: t) || occurs_in pat t

/-- Rust `str::contains` (contiguous-substring occurrence). -/
def contains_substr (s pat : String) : Bool :=
  occurs_in pat.data s.data

/-- A system printer as reported by the external `printers` crate
(`printers::get_printers()`): the fields printer.rs reads. -/
structure SysPrinter where
  name : String
  system_name : String
  is_default : Bool
deriving DecidableEq, Repr

/-- printer.rs `is_thermal_printer`. -/
def is_thermal_printer (name : String) : Bool :=
  let thermal_keywords := ["rollo", "dymo", "zebra", "brother ql", "thermal",
    "label", "4x6", "shipping", "stamps.com"]
  let name_lower := to_lowercase name
  thermal_keywords.any fun kw => contains_substr name_lower kw

/-- printer.rs `get_printers`, with the `printers` crate's answer passed in
as `sys`. -/
def get_printers (sys : List SysPrinter) : List PrinterInfo :=
  sys.map fun p =>
    { id := p.system_name
      name := p.name
      printer_type := if is_thermal_printer p.name then "thermal" else "standard"
      status := "ready"
      is_default := p.is_default }

/-- printer.rs `find_printer`: match on `system_name`, return `system_name`. -/
def find_printer (sys : List SysPrinter) (printer_id : String) : Option String :=
  (sys.find? fun p => p.system_name == printer_id).map fun p => p.system_name

/-- JSON values, as produced by `serde_json` from a text frame. Protocol
numbers are integers (the only numeric field the codec reads is the `u32`
`copies`), so numbers are modelled as `Int`. -/
inductive Json where
  | null
  | bool (b : Bool)
  | num (n : Int)
  | str (s : String)
  | arr (elems : List Json)
  | obj (fields : List (String × Json))

/-- Field lookup in a JSON object (serde matches fields by name). -/
def jget (fields : List (String × Json)) (key : String) : Option Json :=
  (fields.find? fun kv => kv.1 == key).map fun kv => kv.2

/-- serde decoding of a required `String` field. -/
def req_string (fields : List (String × Json)) (key : String) : Except String String :=
  match jget fields key with
  | some (Json.str s) => Except.ok s
  | some _ => Except.error ("invalid type for field " ++ key)
  | none => Except.error ("missing field " ++ key)

/-- serde decoding of the `Option<u32>` field `copies` (absent or `null`
gives `none`; a number must be an integer in `u32` range). -/
def dec_copies (v : Option Json) : Except String (Option Nat) :=
  match v with
  | none => Except.ok none
  | some Json.null => Except.ok none
  | some (Json.num n) =>
      if 0 ≤ n ∧ n < 4294967296 then Except.ok (some n.toNat)
      else Except.error "invalid value: integer out of range for u32"
  | some _ => Except.error "invalid type for field copies"

/-- serde decoding of the `Option<String>` field `paperSize`. -/
def dec_paper_size (v : Option Json) : Except String (Option String) :=
  match v with
  | none => Except.ok none
  | some Json.null => Except.ok none
  | some (Json.str s) => Except.ok (some s)
  | some _ => Except.error "invalid type for field paperSize"

/-- serde decoding of protocol.rs `PrintOptions` (unknown fields ignored,
both fields optional). -/
def decode_print_options (j : Json) : Except String PrintOptions :=
  match j with
  | Json.obj fields =>
      match dec_copies (jget fields "copies") with
      | Except.error e => Except.error e
      | Except.ok copies =>
          match dec_paper_size (jget fields "paperSize") with
          | Except.error e => Except.error e
          | Except.ok ps => Except.ok { copies := copies, paper_size := ps }
  | _ => Except.error "invalid type: expected object for PrintOptions"

/-- serde decoding of protocol.rs `ClientMessage`: internally tagged by the
string field `type` with snake_case variant names; each struct variant
requires its non-`Option` fields (`Print.options` included — it has no
default), renames honoured (`requestId`), unknown fields ignored. -/
def decode_client_message (j : Json) : Except String ClientMessage :=
  match j with
  | Json.obj fields =>
      match jget fields "type" with
      | some (Json.str tag) =>
          if tag == "hello" then
            match req_string fields "version" with
            | Except.error e => Except.error e
            | Except.ok v =>
                match req_string fields "origin" with
                | Except.error e => Except.error e
                | Except.ok o => Except.ok (ClientMessage.Hello v o)
          else if tag == "get_printers" then
            Except.ok ClientMessage.GetPrinters
          else if tag == "print" then
            match req_string fields "requestId" with
            | Except.error e => Except.error e
            | Except.ok rid =>
                match req_string fields "printer" with
                | Except.error e => Except.error e
                | Except.ok pid =>
                    match req_string fields "format" with
                    | Except.error e => Except.error e
                    | Except.ok fmt =>
                        match req_string fields "data" with
                        | Except.error e => Except.error e
                        | Except.ok data =>
                            match jget fields "options" with
                            | none => Except.error "missing field options"
                            | some jo =>
                                match decode_print_options jo with
                                | Except.error e => Except.error e
                                | Except.ok opts =>
                                    Except.ok (ClientMessage.Print rid pid fmt data opts)
          else if tag == "read_scale" then
            Except.ok ClientMessage.ReadScale
          else
            Except.error ("unknown variant " ++ tag)
      | some _ => Except.error "invalid type: the tag must be a string"
      | none => Except.error "missing field type"
  | _ => Except.error "invalid type: expected a JSON object"

/-- Outcomes of the external effects `print_label` performs: the `base64`
crate's `STANDARD.decode`, `File::create`, `File::write_all`, and the
OS-specific `print_file` command (keyed by file extension, printer name and
copies). An error value `some e` / `Except.error e` means the corresponding
step fails with message `e`. -/
structure OsEnv where
  b64_decode : String → Except String (List Nat)
  create_err : Option String
  write_err : Option String
  print_file : String → String → Nat → Except String Unit

/-- printer.rs `print_label`'s file-extension choice from `format`. -/
def extension_for (format : String) : String :=
  let f := to_lowercase format
  if f == "png" then "png"
  else if f == "pdf" then "pdf"
  else if f == "jpg" || f == "jpeg" then "jpg"
  else "pdf"

/-- printer.rs `print_label`. The second component of the result records
whether the temp file exists when the function returns (created by
`File::create`, removed only by the `remove_file` after `print_file`): it is
the leak flag. After a successful create and write the file exists, so the
source's `temp_path.exists()` guard passes. -/
def print_label (env : OsEnv) (printer_name data_base64 format : String)
    (copies : Nat) : Except String Unit × Bool :=
  match env.b64_decode data_base64 with
  | Except.error e =>
      (Except.error ("Failed to decode " ++ format ++ ": " ++ e), false)
  | Except.ok _data =>
      match env.create_err with
      | some e => (Except.error ("Failed to create temp file: " ++ e), false)
      | none =>
          match env.write_err with
          | some e => (Except.error ("Failed to write label: " ++ e), true)
          | none =>
              let result := env.print_file (extension_for format) printer_name copies
              (result, false)

/-- server.rs `ALLOWED_ORIGINS`. -/
def ALLOWED_ORIGINS : List String :=
  ["https://app.limestack.io", "https://limestack.io",
   "http://localhost:5173", "http://localhost:4173"]

/-- server.rs `CONNECTOR_VERSION` is `env!("CARGO_PKG_VERSION")`, fixed at
build time; its concrete value is irrelevant to every dispatch decision. -/
def CONNECTOR_VERSION : String := "0.0.0"

/-- server.rs `handle_print_request`. -/
def handle_print_request (env : OsEnv) (sys : List SysPrinter)
    (request_id printer_id data format : String) (copies : Nat) : ServerMessage :=
  match find_printer sys printer_id with
  | none =>
      ServerMessage.PrintResult request_id false none
        (some ("Printer not found: " ++ printer_id))
  | some printer_name =>
      match (print_label env printer_name data format copies).1 with
      | Except.ok _ =>
          ServerMessage.PrintResult request_id true
            (some ("Label sent to " ++ printer_name)) none
      | Except.error e =>
          ServerMessage.PrintResult request_id false none (some e)

/-- server.rs `handle_connection`, lines 77-130: the dispatch of one decoded
`ClientMessage` against the session's `authenticated` flag. Returns the
single response together with the flag's new value (the source mutates the
local `authenticated` variable in the `Hello` arm). -/
def dispatch (env : OsEnv) (sys : List SysPrinter) (auth : Bool) :
    ClientMessage → ServerMessage × Bool
  | ClientMessage.Hello _version origin =>
      if ! (ALLOWED_ORIGINS.any fun o => starts_with origin o) then
        (ServerMessage.Error "Origin not allowed", auth)
      else
        (ServerMessage.Welcome CONNECTOR_VERSION ["print"] (get_printers sys), true)
  | ClientMessage.GetPrinters =>
      if ! auth then
        (ServerMessage.Error "Not authenticated", auth)
      else
        (ServerMessage.Printers (get_printers sys), auth)
  | ClientMessage.Print request_id printer_id format data options =>
      if ! auth then
        (ServerMessage.Error "Not authenticated", auth)
      else
        (handle_print_request env sys request_id printer_id data format
          (options.copies.getD 1), auth)
  | ClientMessage.ReadScale =>
      (ServerMessage.Error "Scale reading not yet implemented", auth)

/-- One inbound WebSocket event, as matched in server.rs lines 51-63: a text
frame (carrying the result of `serde_json` parsing its contents into a JSON
value, `Except.error` when the text is not valid JSON), a close frame, any
other frame kind (binary, ping, pong), or a transport error. -/
inductive Frame where
  | text (parsed : Except String Json)
  | close
  | other
  | transportErr

/-- `serde_json::from_str::<ClientMessage>`: JSON parsing followed by the
derived decoding. -/
def decode_text (parsed : Except String Json) : Except String ClientMessage :=
  match parsed with
  | Except.error e => Except.error e
  | Except.ok j => decode_client_message j

/-- One iteration of the server.rs connection loop (lines 51-137): the list
of responses written for the event, and `some auth` to continue the loop
with that flag (`none` when the loop breaks). -/
def handle_frame (env : OsEnv) (sys : List SysPrinter) (auth : Bool) :
    Frame → List ServerMessage × Option Bool
  | Frame.text parsed =>
      match decode_text parsed with
      | Except.error e =>
          ([ServerMessage.Error ("Invalid message format: " ++ e)], some auth)
      | Except.ok m =>
          let r := dispatch env sys auth m
          ([r.1], some r.2)
  | Frame.close => ([], none)
  | Frame.other => ([], some auth)
  | Frame.transportErr => ([], none)

/-- A fixed environment for closed statements: base64 decoding fails, file
operations succeed, the OS print command succeeds. -/
def defaultOsEnv : OsEnv where
  b64_decode := fun _ => Except.error "Invalid symbol 64, offset 0."
  create_err := none
  write_err := none
  print_file := fun _ _ _ => Except.ok ()

/-- An environment where everything up to the label write succeeds and the
write of the label bytes fails. -/
def leakEnv : OsEnv where
  b64_decode := fun _ => Except.ok [1, 2, 3]
  create_err := none
  write_err := some "disk full"
  print_file := fun _ _ _ => Except.ok ()

/-- An environment in which every external step succeeds. -/
def okEnv : OsEnv where
  b64_decode := fun _ => Except.ok [1, 2, 3]
  create_err := none
  write_err := none
  print_file := fun _ _ _ => Except.ok ()

/-- The `Print` frame of claim C3 as written: no `options` member. -/
def printFrameNoOptions : Json :=
  Json.obj [("type", Json.str "print"), ("requestId", Json.str "r1"),
    ("printer", Json.str "printer-1"), ("data", Json.str "AQID"),
    ("format", Json.str "pdf")]

/-- The same `Print` frame with an empty `options` object added. -/
def printFrameWithOptions : Json :=
  Json.obj [("type", Json.str "print"), ("requestId", Json.str "r1"),
    ("printer", Json.str "printer-1"), ("data", Json.str "AQID"),
    ("format", Json.str "pdf"), ("options", Json.obj [])]

/-- Helper: when the base64 decode, the temp-file creation and the label
write all succeed, `print_label` returns the OS print command's outcome and
the temp file has been removed. -/
theorem print_label_all_ok (env : OsEnv) (pn data fmt : String) (copies : Nat)
    (bs : List Nat) (hb64 : env.b64_decode data = Except.ok bs)
    (hcreate : env.create_err = none) (hwrite : env.write_err = none) :
    print_label env pn data fmt copies
      = (env.print_file (extension_for fmt) pn copies, false) := by
  unfold print_label
  rw [hb64, hcreate, hwrite]

/-- Helper: `handle_print_request` always answers with a `PrintResult`
carrying the request id it was given. -/
theorem handle_print_request_shape (env : OsEnv) (sys : List SysPrinter)
    (rid pid data fmt : String) (copies : Nat) :
    ∃ s msg err, handle_print_request env sys rid pid data fmt copies
      = ServerMessage.PrintResult rid s msg err := by
  unfold handle_print_request
  split
  · exact ⟨_, _, _, rfl⟩
  · split
    · exact ⟨_, _, _, rfl⟩
    · exact ⟨_, _, _, rfl⟩

/-- Helper: any `PrintResult` coming out of `handle_print_request` has
mutually exclusive `message` / `error` fields. -/
theorem handle_print_request_exclusive (env : OsEnv) (sys : List SysPrinter)
    (rid pid data fmt : String) (copies : Nat) (rid2 : String) (s : Bool)
    (msg err : Option String)
    (h : handle_print_request env sys rid pid data fmt copies
      = ServerMessage.PrintResult rid2 s msg err) :
    (s = true → err = none) ∧ (s = false → msg = none) := by
  unfold handle_print_request at h
  split at h
  · rw [ServerMessage.PrintResult.injEq] at h
    obtain ⟨-, hs, hm, he⟩ := h
    subst hs; subst hm
    exact ⟨fun hc => absurd hc (by decide), fun _ => rfl⟩
  · split at h
    · rw [ServerMessage.PrintResult.injEq] at h
      obtain ⟨-, hs, hm, he⟩ := h
      subst hs; subst he
      exact ⟨fun _ => rfl, fun hc => absurd hc (by decide)⟩
    · rw [ServerMessage.PrintResult.injEq] at h
      obtain ⟨-, hs, hm, he⟩ := h
      subst hs; subst hm
      exact ⟨fun hc => absurd hc (by decide), fun _ => rfl⟩

/-- Claim C1 (counterexample): an unauthenticated `ReadScale` is answered
with `Error{"Scale reading not yet implemented"}`, not with
`Error{"Not authenticated"}` — the `ReadScale` dispatch arm never consults
the authenticated flag. -/
theorem readscale_bypasses_auth_check :
    dispatch defaultOsEnv [] false ClientMessage.ReadScale
      = (ServerMessage.Error "Scale reading not yet implemented", false)
    ∧ ServerMessage.Error "Scale reading not yet implemented"
        ≠ ServerMessage.Error "Not authenticated" := by
  refine ⟨rfl, fun h => ?_⟩
  rw [ServerMessage.Error.injEq] at h
  exact absurd h (by decide)

/-- Claim C1 (amended): while the session is unauthenticated, `GetPrinters`
and `Print` are answered `Error{"Not authenticated"}` with the session state
unchanged; `ReadScale` is instead answered
`Error{"Scale reading not yet implemented"}`, also leaving the state
unchanged (the session state is exactly the authenticated flag; no origin is
stored). -/
theorem unauthenticated_non_hello_rejected (env : OsEnv) (sys : List SysPrinter) :
    dispatch env sys false ClientMessage.GetPrinters
      = (ServerMessage.Error "Not authenticated", false)
    ∧ (∀ rid pid fmt data opts,
        dispatch env sys false (ClientMessage.Print rid pid fmt data opts)
          = (ServerMessage.Error "Not authenticated", false))
    ∧ dispatch env sys false ClientMessage.ReadScale
      = (ServerMessage.Error "Scale reading not yet implemented", false) :=
  ⟨rfl, fun _ _ _ _ _ => rfl, rfl⟩

/-- Claim C2: `Hello{version, origin}` authenticates iff `origin` starts
with one of the `ALLOWED_ORIGINS`; on a match the response is `Welcome` and
the flag becomes true, otherwise the response is `Error{"Origin not
allowed"}` and the flag keeps its previous value. -/
theorem hello_authenticates_iff_allowed (env : OsEnv) (sys : List SysPrinter)
    (auth : Bool) (v origin : String) :
    ((ALLOWED_ORIGINS.any fun o => starts_with origin o) = true →
        dispatch env sys auth (ClientMessage.Hello v origin)
          = (ServerMessage.Welcome CONNECTOR_VERSION ["print"] (get_printers sys), true))
    ∧ ((ALLOWED_ORIGINS.any fun o => starts_with origin o) = false →
        dispatch env sys auth (ClientMessage.Hello v origin)
          = (ServerMessage.Error "Origin not allowed", auth)) := by
  constructor <;> intro h <;> simp [dispatch, h]

/-- Claim C2 witness: `"https://app.limestack.io/x"` authenticates with a
`Welcome`; `"https://evil.example"` is rejected with the flag unchanged. -/
theorem hello_authenticates_iff_allowed_witness :
    dispatch defaultOsEnv [] false (ClientMessage.Hello "1.0" "https://app.limestack.io/x")
      = (ServerMessage.Welcome CONNECTOR_VERSION ["print"] (get_printers []), true)
    ∧ dispatch defaultOsEnv [] false (ClientMessage.Hello "1.0" "https://evil.example")
      = (ServerMessage.Error "Origin not allowed", false) :=
  ⟨(hello_authenticates_iff_allowed defaultOsEnv [] false "1.0"
      "https://app.limestack.io/x").1 (by decide),
   (hello_authenticates_iff_allowed defaultOsEnv [] false "1.0"
      "https://evil.example").2 (by decide)⟩

/-- Claim C3 (counterexample): the `Print` frame exactly as written — with
no `options` member — does not decode: `options` is a required field of the
`Print` variant, so the codec rejects the frame and the connection loop
answers with a generic `Error`, not a `PrintResult`. -/
theorem print_frame_without_options_rejected :
    decode_client_message printFrameNoOptions = Except.error "missing field options"
    ∧ handle_frame defaultOsEnv [] true (Frame.text (Except.ok printFrameNoOptions))
      = ([ServerMessage.Error "Invalid message format: missing field options"], some true) :=
  ⟨rfl, rfl⟩

/-- Claim C3 (amended): with the required `options` member supplied (an
empty object suffices), the frame decodes to the expected `Print` message,
and in an authenticated session whose printer resolves and whose base64 /
temp-file / OS-print steps all succeed, dispatch yields
`PrintResult{requestId:"r1", success:true, message:<non-empty>, error:absent}`. -/
theorem print_with_options_succeeds (env : OsEnv) (sys : List SysPrinter)
    (name : String) (bs : List Nat)
    (hfind : find_printer sys "printer-1" = some name)
    (hb64 : env.b64_decode "AQID" = Except.ok bs)
    (hcreate : env.create_err = none)
    (hwrite : env.write_err = none)
    (hprint : env.print_file "pdf" name 1 = Except.ok ()) :
    decode_client_message printFrameWithOptions
      = Except.ok (ClientMessage.Print "r1" "printer-1" "pdf" "AQID" ⟨none, none⟩)
    ∧ dispatch env sys true (ClientMessage.Print "r1" "printer-1" "pdf" "AQID" ⟨none, none⟩)
      = (ServerMessage.PrintResult "r1" true (some ("Label sent to " ++ name)) none, true)
    ∧ ("Label sent to " ++ name) ≠ "" := by
  refine ⟨rfl, ?_, ?_⟩
  · have hpl := print_label_all_ok env name "AQID" "pdf" 1 bs hb64 hcreate hwrite
    have hext : extension_for "pdf" = "pdf" := rfl
    rw [hext] at hpl
    simp [dispatch, handle_print_request, hfind, hpl, hprint]
  · intro h
    have h2 : ("Label sent to " ++ name).length = 0 := by rw [h]; rfl
    rw [String.length_append] at h2
    have h3 : "Label sent to ".length = 14 := rfl
    rw [h3] at h2
    omega

/-- Claim C3 witness: a concrete all-succeeding environment and a system
list containing `printer-1`. -/
theorem print_with_options_succeeds_witness :
    find_printer [⟨"Printer 1", "printer-1", true⟩] "printer-1" = some "printer-1"
    ∧ (decode_client_message printFrameWithOptions
        = Except.ok (ClientMessage.Print "r1" "printer-1" "pdf" "AQID" ⟨none, none⟩)
      ∧ dispatch okEnv [⟨"Printer 1", "printer-1", true⟩] true
          (ClientMessage.Print "r1" "printer-1" "pdf" "AQID" ⟨none, none⟩)
        = (ServerMessage.PrintResult "r1" true
            (some ("Label sent to " ++ "printer-1")) none, true)
      ∧ ("Label sent to " ++ "printer-1") ≠ "") :=
  ⟨rfl, print_with_options_succeeds okEnv [⟨"Printer 1", "printer-1", true⟩]
    "printer-1" [1, 2, 3] rfl rfl rfl rfl rfl⟩

/-- Claim C4 (code bug): when base64 decoding and temp-file creation succeed
and the write of the label bytes fails, `print_label` returns the write
error while the temp file still exists at return (second component `true`):
the early return on a failed `write_all` skips the `remove_file` cleanup, so
the temp file is leaked exactly when this error is reported. -/
theorem write_failure_leaks_temp_file :
    print_label leakEnv "Printer 1" "AQID" "pdf" 1
      = (Except.error "Failed to write label: disk full", true) := rfl

/-- Claim C5: in an authenticated session, a `Print` whose printer id does
not resolve is answered by exactly
`PrintResult{requestId, success:false, error:"Printer not found: <id>"}`
with `message` absent — never by a generic `Error`. -/
theorem print_unknown_printer_negative_result (env : OsEnv) (sys : List SysPrinter)
    (rid pid fmt data : String) (opts : PrintOptions)
    (h : find_printer sys pid = none) :
    dispatch env sys true (ClientMessage.Print rid pid fmt data opts)
      = (ServerMessage.PrintResult rid false none
          (some ("Printer not found: " ++ pid)), true) := by
  simp [dispatch, handle_print_request, h]

/-- Claim C5 witness: the id `"nonexistent"` against an empty printer
list. -/
theorem print_unknown_printer_negative_result_witness :
    find_printer [] "nonexistent" = none
    ∧ dispatch defaultOsEnv [] true
        (ClientMessage.Print "abc" "nonexistent" "pdf" "" ⟨none, none⟩)
      = (ServerMessage.PrintResult "abc" false none
          (some ("Printer not found: " ++ "nonexistent")), true) :=
  ⟨rfl, print_unknown_printer_negative_result defaultOsEnv [] "abc" "nonexistent"
    "pdf" "" ⟨none, none⟩ rfl⟩

/-- Claim C6: every `PrintResult` the dispatcher produces carries exactly
the request id of the `Print` message that triggered it — whatever the
session state, environment, and outcome, a `PrintResult` response can only
come from a `Print` message with that same `requestId`. -/
theorem print_result_echoes_request_id (env : OsEnv) (sys : List SysPrinter)
    (auth : Bool) (m : ClientMessage) (rid : String) (s : Bool)
    (msg err : Option String)
    (h : (dispatch env sys auth m).1 = ServerMessage.PrintResult rid s msg err) :
    ∃ pid fmt data opts, m = ClientMessage.Print rid pid fmt data opts := by
  cases m with
  | Hello v origin =>
      simp only [dispatch] at h
      split at h <;> simp at h
  | GetPrinters =>
      simp only [dispatch] at h
      split at h <;> simp at h
  | Print rid2 pid fmt data opts =>
      simp only [dispatch] at h
      split at h
      · simp at h
      · obtain ⟨s2, msg2, err2, heq⟩ := handle_print_request_shape env sys rid2 pid
          data fmt (opts.copies.getD 1)
        have h2 : ServerMessage.PrintResult rid2 s2 msg2 err2
            = ServerMessage.PrintResult rid s msg err := by
          rw [← heq]; exact h
        rw [ServerMessage.PrintResult.injEq] at h2
        exact ⟨pid, fmt, data, opts, by rw [h2.1]⟩
  | ReadScale =>
      simp only [dispatch] at h
      simp at h

/-- Claim C6 witness: a concrete `Print` whose dispatch produces a
`PrintResult`, which therefore echoes its request id `"abc"`. -/
theorem print_result_echoes_request_id_witness :
    ∃ pid fmt data opts,
      ClientMessage.Print "abc" "x" "pdf" "d" ⟨none, none⟩
        = ClientMessage.Print "abc" pid fmt data opts :=
  print_result_echoes_request_id defaultOsEnv [] true
    (ClientMessage.Print "abc" "x" "pdf" "d" ⟨none, none⟩)
    "abc" false none (some ("Printer not found: " ++ "x")) rfl

/-- Claim C7: every `PrintResult` the dispatcher produces has mutually
exclusive optional fields: `success=true` implies `error` is absent, and
`success=false` implies `message` is absent. -/
theorem print_result_fields_exclusive (env : OsEnv) (sys : List SysPrinter)
    (auth : Bool) (m : ClientMessage) (rid : String) (s : Bool)
    (msg err : Option String)
    (h : (dispatch env sys auth m).1 = ServerMessage.PrintResult rid s msg err) :
    (s = true → err = none) ∧ (s = false → msg = none) := by
  cases m with
  | Hello v origin =>
      simp only [dispatch] at h
      split at h <;> simp at h
  | GetPrinters =>
      simp only [dispatch] at h
      split at h <;> simp at h
  | Print rid2 pid fmt data opts =>
      simp only [dispatch] at h
      split at h
      · simp at h
      · exact handle_print_request_exclusive env sys rid2 pid data fmt
          (opts.copies.getD 1) rid s msg err h
  | ReadScale =>
      simp only [dispatch] at h
      simp at h

/-- Claim C7 witness: a concrete failed `PrintResult` (`success=false`) has
no `message`. -/
theorem print_result_fields_exclusive_witness :
    (false = true → (some ("Printer not found: " ++ "x") : Option String) = none)
    ∧ (false = false → (none : Option String) = none) :=
  print_result_fields_exclusive defaultOsEnv [] true
    (ClientMessage.Print "abc" "x" "pdf" "d" ⟨none, none⟩)
    "abc" false none (some ("Printer not found: " ++ "x")) rfl

/-- Claim C8: a text frame that fails to parse or decode (unknown or
missing tag, missing required field, wrong field type) makes the connection
loop send exactly one `Error{message}` response, leave the authenticated
flag unchanged, and keep the loop running — the total decode function never
faults and no partially-populated message reaches the dispatcher. -/
theorem undecodable_frame_single_error (env : OsEnv) (sys : List SysPrinter)
    (auth : Bool) (parsed : Except String Json) (e : String)
    (h : decode_text parsed = Except.error e) :
    handle_frame env sys auth (Frame.text parsed)
      = ([ServerMessage.Error ("Invalid message format: " ++ e)], some auth) := by
  simp only [handle_frame]
  rw [h]

/-- Claim C8 witness: a frame with the unknown tag `"bogus"` is answered by
one `Error` and the loop continues unauthenticated. -/
theorem undecodable_frame_single_error_witness :
    decode_text (Except.ok (Json.obj [("type", Json.str "bogus")]))
      = Except.error "unknown variant bogus"
    ∧ handle_frame defaultOsEnv [] false
        (Frame.text (Except.ok (Json.obj [("type", Json.str "bogus")])))
      = ([ServerMessage.Error ("Invalid message format: " ++ "unknown variant bogus")],
         some false) :=
  ⟨rfl, undecodable_frame_single_error defaultOsEnv [] false
    (Except.ok (Json.obj [("type", Json.str "bogus")])) "unknown variant bogus" rfl⟩

/-- Claim C9 (counterexample): a non-text, non-close frame (binary, ping or
pong) is an inbound message the loop processes without closing the
connection (it continues with the flag unchanged), yet zero responses are
produced for it. -/
theorem binary_frame_yields_no_response :
    (handle_frame defaultOsEnv [] false Frame.other).1.length = 0
    ∧ (handle_frame defaultOsEnv [] false Frame.other).2 = some false :=
  ⟨rfl, rfl⟩

/-- Claim C9 (amended): every inbound text frame — whatever the session
state, its contents, or the dispatch outcome — produces exactly one response
message; non-text, non-close frames (binary, ping, pong) are skipped with no
response, and a close frame ends the loop with no response. -/
theorem text_frame_exactly_one_response (env : OsEnv) (sys : List SysPrinter)
    (auth : Bool) (parsed : Except String Json) :
    (handle_frame env sys auth (Frame.text parsed)).1.length = 1
    ∧ handle_frame env sys auth Frame.other = ([], some auth)
    ∧ handle_frame env sys auth Frame.close = ([], none) := by
  refine ⟨?_, rfl, rfl⟩
  rcases hd : decode_text parsed with e | m <;> simp [handle_frame, hd]

/-- Claim C10: the `version` field of `Hello` has no effect: two `Hello`
messages differing only in `version`, dispatched from the same session state
and environment, give the same response and the same resulting state. -/
theorem hello_version_irrelevant (env : OsEnv) (sys : List SysPrinter)
    (auth : Bool) (v1 v2 origin : String) :
    dispatch env sys auth (ClientMessage.Hello v1 origin)
      = dispatch env sys auth (ClientMessage.Hello v2 origin) := rfl

end Limestack
